import Mathlib

/-!
Verification of the gfxstream component adapter of `rutabaga_gfx`
(`src/rutabaga_gfx/src/gfxstream.rs`, `src/rutabaga_gfx/src/rutabaga_utils.rs`,
`src/rutabaga_gfx/src/rutabaga_os/sys/linux/memory_mapping.rs`).

The native gfxstream renderer sits behind a fixed C ABI (`stream_renderer_*`
functions).  It is modelled as an oracle (`Backend`): a structure of pure
functions giving, for each possible call, the return code and the values the
native side would write through its out-parameters.  Every embedded adapter
operation returns, besides its result, the chronological list of backend
calls it performed (`List BackendCall`) and, where relevant, the list of
fences with which it invoked the registered fence handler.  "No backend call
was made" and "the handler was invoked synchronously within the call" are
then statements about those traces.

Machine integers are modelled as `Nat` (return codes as `Int`); the only
place where a width matters for the verified claims is the `usize → u32`
conversion in `submit_cmd`, made explicit with `2 ^ 32`.
-/

/- ## Constants from rutabaga_utils.rs -/

/-- Rutabaga flags for creating fences (rutabaga_utils.rs). -/
def RUTABAGA_FLAG_FENCE : Nat := 1

def RUTABAGA_FLAG_INFO_RING_IDX : Nat := 2

def RUTABAGA_FLAG_FENCE_HOST_SHAREABLE : Nat := 4

/-- Rutabaga import flags (rutabaga_utils.rs). -/
def RUTABAGA_IMPORT_FLAG_3D_INFO : Nat := 1

def RUTABAGA_IMPORT_FLAG_VULKAN_INFO : Nat := 2

def RUTABAGA_IMPORT_FLAG_RESOURCE_EXISTS : Nat := 2 ^ 30

def RUTABAGA_IMPORT_FLAG_PRESERVE_CONTENT : Nat := 2 ^ 31

/-- Mapped memory caching flags (rutabaga_utils.rs). -/
def RUTABAGA_MAP_CACHE_MASK : Nat := 0x0f

/-- Access flags (rutabaga_utils.rs). -/
def RUTABAGA_MAP_ACCESS_MASK : Nat := 0xf0

def RUTABAGA_MAP_ACCESS_READ : Nat := 0x10

def RUTABAGA_MAP_ACCESS_WRITE : Nat := 0x20

def RUTABAGA_MAP_ACCESS_RW : Nat := 0x30

/- ## Data model from rutabaga_utils.rs -/

/-- `RutabagaFence` (rutabaga_utils.rs): `flags: u32`, `fence_id: u64`,
`ctx_id: u32`, `ring_idx: u8`. -/
structure RutabagaFence where
  flags : Nat
  fence_id : Nat
  ctx_id : Nat
  ring_idx : Nat
deriving DecidableEq

/-- `RutabagaHandle` (rutabaga_utils.rs): an OS descriptor plus a type tag.
The descriptor itself is opaque to the adapter; it is carried as the raw
`i64` value the backend reported. -/
structure RutabagaHandle where
  os_handle : Int
  handle_type : Nat
deriving DecidableEq

/-- `stream_renderer_handle` (gfxstream.rs): `os_handle: i64`,
`handle_type: u32`. -/
structure StreamRendererHandle where
  os_handle : Int
  handle_type : Nat
deriving DecidableEq

/-- `RutabagaIovec` (rutabaga_utils.rs); the raw pointer is carried as a
numeric address. -/
structure RutabagaIovec where
  base : Nat
  len : Nat
deriving DecidableEq

/-- `RutabagaMapping` (rutabaga_utils.rs). -/
structure RutabagaMapping where
  ptr : Nat
  size : Nat
deriving DecidableEq

/-- `DeviceId` (rutabaga_utils.rs): two 16-byte UUIDs. -/
structure DeviceId where
  device_uuid : List Nat
  driver_uuid : List Nat
deriving DecidableEq

/-- `VulkanInfo` (rutabaga_utils.rs). -/
structure VulkanInfo where
  memory_idx : Nat
  device_id : DeviceId
deriving DecidableEq

/-- `Resource3DInfo` (rutabaga_utils.rs). -/
structure Resource3DInfo where
  width : Nat
  height : Nat
  drm_fourcc : Nat
  strides : List Nat
  offsets : List Nat
  modifier : Nat
  guest_cpu_mappable : Bool
deriving DecidableEq

/-- `RutabagaImportData` (rutabaga_utils.rs). -/
structure RutabagaImportData where
  flags : Nat
  info_3d : Resource3DInfo
deriving DecidableEq

/-- `RutabagaResource` (rutabaga_core.rs declaration, fields as constructed
in gfxstream.rs).  `info_2d`'s payload type is defined outside the sources
under verification and is never constructed by gfxstream, so it is carried
as `Option Unit`. -/
structure RutabagaResource where
  resource_id : Nat
  handle : Option RutabagaHandle
  blob : Bool
  blob_mem : Nat
  blob_flags : Nat
  map_info : Option Nat
  info_2d : Option Unit
  info_3d : Option Resource3DInfo
  vulkan_info : Option VulkanInfo
  backing_iovecs : Option (List RutabagaIovec)
  component_mask : Nat
  size : Nat
  mapping : Option RutabagaMapping
deriving DecidableEq

/-- `Transfer3D` (rutabaga_utils.rs). -/
structure Transfer3D where
  x : Nat
  y : Nat
  z : Nat
  w : Nat
  h : Nat
  d : Nat
  level : Nat
  stride : Nat
  layer_stride : Nat
  offset : Nat
deriving DecidableEq

/-- `Transfer3D::is_empty` (rutabaga_utils.rs): true iff this box represents
a volume of zero, i.e. `w == 0 || h == 0 || d == 0`. -/
def Transfer3D.is_empty (t : Transfer3D) : Bool :=
  t.w == 0 || t.h == 0 || t.d == 0

/-- `VirglBox`, the box layout handed to the backend transfer calls. -/
structure VirglBox where
  x : Nat
  y : Nat
  z : Nat
  w : Nat
  h : Nat
  d : Nat
deriving DecidableEq

/-- The subset of `RutabagaErrorKind` (rutabaga_utils.rs) reachable from the
operations verified here.  A `RutabagaError` pairs exactly one kind with an
optional causal chain; only the kind is ever branched on, so errors are
modelled by their kind. -/
inductive RutabagaErrorKind where
  | ComponentError (code : Int)
  | InvalidCommandSize (size : Nat)
  | TryFromIntError
  | IoError
  | MappingFailed (code : Int)
  | NixError (errno : Int)
  | SpecViolation (msg : String)
  | Unsupported
deriving DecidableEq

/- ## The backend oracle and call traces -/

/-- One call across the fixed C ABI to the native gfxstream renderer, with
the arguments the adapter passed. -/
inductive BackendCall where
  | createFence (fence : RutabagaFence)
  | exportFence (fence_id : Nat)
  | submitCmd (ctx_id : Nat) (cmd_size : Nat) (cmd : List Nat)
  | transferWriteIov (res_handle ctx_id level stride layer_stride : Nat)
      (box : VirglBox) (offset : Nat)
  | transferReadIov (res_handle ctx_id level stride layer_stride : Nat)
      (box : VirglBox) (offset : Nat) (iovec_cnt : Nat)
  | importResource (res_handle : Nat) (hnd : StreamRendererHandle) (flags : Nat)
  | resourceMapInfo (res_handle : Nat)
  | getCapSet (set : Nat)
  | fillCaps (set version : Nat)
  | contextCreate (handle nlen : Nat) (name : List Nat) (context_init : Nat)
deriving DecidableEq

/-- Oracle for the native renderer: for every possible call, the return code
and the out-parameter values the `stream_renderer_*` entry points would
produce.  The adapter assumes nothing about the backend beyond the
return-code contract, so all claims are proved for an arbitrary oracle. -/
structure Backend where
  create_fence_result : RutabagaFence → Int
  export_fence_result : Nat → Int × StreamRendererHandle
  submit_cmd_result : Nat → Nat → List Nat → Int
  transfer_write_result : Nat → Nat → Transfer3D → Int
  transfer_read_result : Nat → Nat → Transfer3D → Nat → Int
  import_resource_result : Nat → StreamRendererHandle → Nat → Int
  map_info_result : Nat → Int × Nat
  get_cap_set_result : Nat → Nat × Nat
  fill_caps_bytes : Nat → Nat → List Nat
  context_create_result : Nat → Nat → List Nat → Nat → Int

/-- Modelled from the spec: `ret_to_res` lives in `renderer_utils.rs`, which
is not among the sources under verification; the spec fixes its behavior as
"zero = success, non-zero = backend-defined failure code surfaced verbatim",
wrapped as a component-error kind carrying the raw status code. -/
def ret_to_res (ret : Int) : Except RutabagaErrorKind Unit :=
  if ret = 0 then Except.ok () else Except.error (RutabagaErrorKind.ComponentError ret)

/- ## GfxstreamContext (gfxstream.rs) -/

/-- `GfxstreamContext` (gfxstream.rs): the guest-visible context id.  The
`fence_handler` field is an opaque closure; its invocations are recorded in
the handler trace of each operation rather than stored. -/
structure GfxstreamContext where
  ctx_id : Nat
deriving DecidableEq

/-- `GfxstreamContextSnapshot` (gfxstream.rs). -/
structure GfxstreamContextSnapshot where
  ctx_id : Nat
deriving DecidableEq

/-- `GfxstreamContext::export_fence` (gfxstream.rs, `gfxstream_unstable`
configuration): asks the backend to export the fence as an OS handle and
wraps the returned descriptor. -/
def GfxstreamContext.export_fence (b : Backend) (_ctx : GfxstreamContext)
    (fence_id : Nat) :
    Except RutabagaErrorKind RutabagaHandle × List BackendCall :=
  let r := b.export_fence_result fence_id
  match ret_to_res r.1 with
  | Except.error e => (Except.error e, [BackendCall.exportFence fence_id])
  | Except.ok _ =>
      (Except.ok { os_handle := r.2.os_handle, handle_type := r.2.handle_type },
       [BackendCall.exportFence fence_id])

/-- `GfxstreamContext::context_create_fence` (gfxstream.rs).  Returns the
result, the backend-call trace and the list of fences passed to the
registered fence handler during the call.  A fence whose `ring_idx` (a `u8`,
compared as `u32`) equals 1 invokes the handler inline and returns without
touching the backend; otherwise the fence is forwarded to
`stream_renderer_create_fence` and, when the host-shareable flag is set, the
fence is exported synchronously afterwards, `?`-propagating any export
error. -/
def GfxstreamContext.context_create_fence (b : Backend) (ctx : GfxstreamContext)
    (fence : RutabagaFence) :
    Except RutabagaErrorKind (Option RutabagaHandle) × List BackendCall ×
      List RutabagaFence :=
  if fence.ring_idx = 1 then
    (Except.ok none, [], [fence])
  else
    match ret_to_res (b.create_fence_result fence) with
    | Except.error e => (Except.error e, [BackendCall.createFence fence], [])
    | Except.ok _ =>
        if fence.flags &&& RUTABAGA_FLAG_FENCE_HOST_SHAREABLE ≠ 0 then
          match GfxstreamContext.export_fence b ctx fence.fence_id with
          | (Except.error e, ecalls) =>
              (Except.error e, BackendCall.createFence fence :: ecalls, [])
          | (Except.ok hnd, ecalls) =>
              (Except.ok (some hnd), BackendCall.createFence fence :: ecalls, [])
        else
          (Except.ok none, [BackendCall.createFence fence], [])

/-- `GfxstreamContext::submit_cmd` (gfxstream.rs).  A buffer whose byte
length is not a multiple of `size_of::<u32>() = 4` is rejected with
`InvalidCommandSize` before any backend call; otherwise the length is
converted to `u32` via `try_into()?` (failing with `TryFromIntError` when it
does not fit) and the buffer is handed to `stream_renderer_submit_cmd`
unmodified. -/
def GfxstreamContext.submit_cmd (b : Backend) (ctx : GfxstreamContext)
    (commands : List Nat) :
    Except RutabagaErrorKind Unit × List BackendCall :=
  if commands.length % 4 ≠ 0 then
    (Except.error (RutabagaErrorKind.InvalidCommandSize commands.length), [])
  else if commands.length < 2 ^ 32 then
    (ret_to_res (b.submit_cmd_result ctx.ctx_id commands.length commands),
     [BackendCall.submitCmd ctx.ctx_id commands.length commands])
  else
    (Except.error RutabagaErrorKind.TryFromIntError, [])

/- ## Gfxstream component (gfxstream.rs) -/

/-- `Gfxstream::create_fence` (gfxstream.rs): the component-level entry
point forwards every fence straight to `stream_renderer_create_fence`; it
performs no ring-index check and never invokes the fence handler within the
call (the handler trace is always empty). -/
def Gfxstream.create_fence (b : Backend) (fence : RutabagaFence) :
    Except RutabagaErrorKind Unit × List BackendCall × List RutabagaFence :=
  (ret_to_res (b.create_fence_result fence), [BackendCall.createFence fence], [])

/-- `Gfxstream::map_info` (gfxstream.rs): queries
`stream_renderer_resource_map_info` and returns the reported value with
`RUTABAGA_MAP_ACCESS_RW` ored in. -/
def Gfxstream.map_info (b : Backend) (resource_id : Nat) :
    Except RutabagaErrorKind Nat × List BackendCall :=
  let r := b.map_info_result resource_id
  match ret_to_res r.1 with
  | Except.error e => (Except.error e, [BackendCall.resourceMapInfo resource_id])
  | Except.ok _ =>
      (Except.ok (r.2 ||| RUTABAGA_MAP_ACCESS_RW),
       [BackendCall.resourceMapInfo resource_id])

/-- `Gfxstream::transfer_write` (gfxstream.rs).  An empty transfer region
returns success immediately; otherwise the box is forwarded to
`stream_renderer_transfer_write_iov`.  The resource is returned to make the
absence of mutation explicit. -/
def Gfxstream.transfer_write (b : Backend) (ctx_id : Nat)
    (resource : RutabagaResource) (transfer : Transfer3D) :
    Except RutabagaErrorKind Unit × List BackendCall × RutabagaResource :=
  if transfer.is_empty then
    (Except.ok (), [], resource)
  else
    (ret_to_res (b.transfer_write_result resource.resource_id ctx_id transfer),
     [BackendCall.transferWriteIov resource.resource_id ctx_id transfer.level
        transfer.stride transfer.layer_stride
        { x := transfer.x, y := transfer.y, z := transfer.z,
          w := transfer.w, h := transfer.h, d := transfer.d }
        transfer.offset],
     resource)

/-- `Gfxstream::transfer_read` (gfxstream.rs).  An empty transfer region
returns success immediately; otherwise a single iovec is built when a
buffer was supplied (`iovec_cnt = 1`, else 0) and the box is forwarded to
`stream_renderer_transfer_read_iov`. -/
def Gfxstream.transfer_read (b : Backend) (ctx_id : Nat)
    (resource : RutabagaResource) (transfer : Transfer3D)
    (buf : Option (List Nat)) :
    Except RutabagaErrorKind Unit × List BackendCall × RutabagaResource :=
  if transfer.is_empty then
    (Except.ok (), [], resource)
  else
    let iovec_cnt := match buf with
      | some _ => 1
      | none => 0
    (ret_to_res
       (b.transfer_read_result resource.resource_id ctx_id transfer iovec_cnt),
     [BackendCall.transferReadIov resource.resource_id ctx_id transfer.level
        transfer.stride transfer.layer_stride
        { x := transfer.x, y := transfer.y, z := transfer.z,
          w := transfer.w, h := transfer.h, d := transfer.d }
        transfer.offset iovec_cnt],
     resource)

/-- `Gfxstream::get_capset_info` (gfxstream.rs): reads `(version, max_size)`
from `stream_renderer_get_cap_set`. -/
def Gfxstream.get_capset_info (b : Backend) (capset_id : Nat) :
    (Nat × Nat) × List BackendCall :=
  (b.get_cap_set_result capset_id, [BackendCall.getCapSet capset_id])

/-- In-place fill of a fixed-length buffer through a raw pointer, as
`stream_renderer_fill_caps` does: the written bytes overwrite the start of
the buffer and the buffer's length never changes. -/
def fillBufferBytes (buf written : List Nat) : List Nat :=
  written.take buf.length ++ buf.drop written.length

/-- `Gfxstream::get_capset` (gfxstream.rs): allocates a zeroed buffer of the
`max_size` reported by `get_capset_info` and lets the backend fill it. -/
def Gfxstream.get_capset (b : Backend) (capset_id version : Nat) :
    List Nat × List BackendCall :=
  let info := Gfxstream.get_capset_info b capset_id
  (fillBufferBytes (List.replicate info.1.2 0) (b.fill_caps_bytes capset_id version),
   info.2 ++ [BackendCall.fillCaps capset_id version])

/-- The default context name `"gpu_renderer"` (gfxstream.rs,
`Gfxstream::create_context`), as UTF-8 bytes. -/
def default_context_name : List Nat :=
  [103, 112, 117, 95, 114, 101, 110, 100, 101, 114, 101, 114]

/-- Name selection in `Gfxstream::create_context` (gfxstream.rs): start
from `"gpu_renderer"` and replace it by the supplied name when that name is
present and non-empty (`context_name.filter(|s| !s.is_empty())`). -/
def resolve_context_name (context_name : Option (List Nat)) : List Nat :=
  match context_name with
  | some s => if s.length ≠ 0 then s else default_context_name
  | none => default_context_name

/-- `Gfxstream::create_context` (gfxstream.rs).  Context names are UTF-8
byte strings; a missing or empty name falls back to `"gpu_renderer"`, and
the backend receives the chosen name together with its byte length cast to
`u32` (`name.len() as u32`), a cast that silently wraps modulo 2^32. -/
def Gfxstream.create_context (b : Backend) (ctx_id context_init : Nat)
    (context_name : Option (List Nat)) :
    Except RutabagaErrorKind GfxstreamContext × List BackendCall :=
  let name := resolve_context_name context_name
  ((ret_to_res (b.context_create_result ctx_id (name.length % 2 ^ 32) name
      context_init)).map (fun _ => { ctx_id := ctx_id }),
   [BackendCall.contextCreate ctx_id (name.length % 2 ^ 32) name context_init])

/- ## Gfxstream::import (gfxstream.rs, gfxstream_unstable) -/

/-- Result type distinguishing a returned value, a returned error, and a
panicking assertion (`assert!`), which crashes rather than returns. -/
inductive GfxOutcome (α : Type) where
  | ok (val : α)
  | err (e : RutabagaErrorKind)
  | panicked
deriving DecidableEq

/-- `Gfxstream::import` (gfxstream.rs, `gfxstream_unstable`).  The import
handle is repacked as a `stream_renderer_handle`; then
`assert!(import_data.flags & STREAM_RENDERER_IMPORT_FLAG_VULKAN_INFO == 0)`
panics whenever the device-identity flag is set, before any backend call.
Otherwise the import data is forwarded to
`stream_renderer_import_resource`; on success, no resource value is
produced when the resource-exists flag is set, else a fresh
`RutabagaResource` is returned. -/
def Gfxstream.import (b : Backend) (resource_id : Nat)
    (import_handle : RutabagaHandle) (import_data : RutabagaImportData) :
    GfxOutcome (Option RutabagaResource) × List BackendCall :=
  let stream_handle : StreamRendererHandle :=
    { os_handle := import_handle.os_handle,
      handle_type := import_handle.handle_type }
  if import_data.flags &&& RUTABAGA_IMPORT_FLAG_VULKAN_INFO ≠ 0 then
    (GfxOutcome.panicked, [])
  else
    let ret := b.import_resource_result resource_id stream_handle import_data.flags
    let calls := [BackendCall.importResource resource_id stream_handle import_data.flags]
    match ret_to_res ret with
    | Except.error e => (GfxOutcome.err e, calls)
    | Except.ok _ =>
        if import_data.flags &&& RUTABAGA_IMPORT_FLAG_RESOURCE_EXISTS ≠ 0 then
          (GfxOutcome.ok none, calls)
        else
          (GfxOutcome.ok (some
            { resource_id := resource_id,
              handle := none,
              blob := false,
              blob_mem := 0,
              blob_flags := 0,
              map_info := none,
              info_2d := none,
              info_3d := none,
              vulkan_info := none,
              backing_iovecs := none,
              component_mask := 4,
              size := 0,
              mapping := none }), calls)

/- ## MemoryMapping (rutabaga_os/sys/linux/memory_mapping.rs) -/

/-- `nix::sys::mman::ProtFlags` values produced by
`MemoryMapping::from_safe_descriptor`. -/
inductive ProtFlags where
  | read
  | write
  | rw
deriving DecidableEq

/-- One `mmap` system call, with the size and protection requested. -/
inductive MmapCall where
  | mmapShared (descriptor size : Nat) (prot : ProtFlags)
deriving DecidableEq

/-- Oracle for the OS `mmap` primitive: either an errno (left) or the mapped
address (right). -/
structure MmapSys where
  mmap_result : Nat → Nat → ProtFlags → Int ⊕ Nat

/-- `MemoryMapping` (memory_mapping.rs): mapped address plus size. -/
structure MemoryMapping where
  addr : Nat
  size : Nat
deriving DecidableEq

/-- `MemoryMapping::from_safe_descriptor` (memory_mapping.rs).  The access
bits of `map_info` are matched first: anything other than READ, WRITE or RW
is rejected with `SpecViolation "incorrect access flags"`.  Then a zero
`size` (no `NonZeroUsize`) is rejected with
`SpecViolation "zero size mapping"`.  Only with a valid protection and a
non-zero size is `mmap` invoked; an `mmap` errno is surfaced as a
`NixError`. -/
def MemoryMapping.from_safe_descriptor (sys : MmapSys) (descriptor : Nat)
    (size : Nat) (map_info : Nat) :
    Except RutabagaErrorKind MemoryMapping × List MmapCall :=
  let masked := map_info &&& RUTABAGA_MAP_ACCESS_MASK
  let protResult : Except RutabagaErrorKind ProtFlags :=
    if masked = RUTABAGA_MAP_ACCESS_READ then Except.ok ProtFlags.read
    else if masked = RUTABAGA_MAP_ACCESS_WRITE then Except.ok ProtFlags.write
    else if masked = RUTABAGA_MAP_ACCESS_RW then Except.ok ProtFlags.rw
    else Except.error (RutabagaErrorKind.SpecViolation "incorrect access flags")
  match protResult with
  | Except.error e => (Except.error e, [])
  | Except.ok prot =>
      if size ≠ 0 then
        match sys.mmap_result descriptor size prot with
        | Sum.inl errno =>
            (Except.error (RutabagaErrorKind.NixError errno),
             [MmapCall.mmapShared descriptor size prot])
        | Sum.inr addr =>
            (Except.ok { addr := addr, size := size },
             [MmapCall.mmapShared descriptor size prot])
      else
        (Except.error (RutabagaErrorKind.SpecViolation "zero size mapping"), [])

/- ## Snapshot encoding (gfxstream.rs with the external serde_json crate) -/

/-- Big-endian ASCII decimal digits of `n`, as the external serde_json crate
prints an unsigned integer (no sign, no leading zeros, `0` for zero). -/
def digitsBE (n : Nat) : List Nat :=
  if n < 10 then [n + 48]
  else digitsBE (n / 10) ++ [n % 10 + 48]
termination_by n
decreasing_by exact Nat.div_lt_self (by omega) (by norm_num)

/-- The bytes of the JSON text preceding the number in
`serde_json::to_writer` output for `GfxstreamContextSnapshot`; reads
`\x7b"ctx_id":`. -/
def jsonSnapshotHead : List Nat :=
  [123, 34, 99, 116, 120, 95, 105, 100, 34, 58]

/-- Modelled from the external serde_json crate: `serde_json::to_writer`
applied to a `GfxstreamContextSnapshot` emits the JSON object with the
single field `ctx_id`, closed by `\x7d` (byte 125). -/
def serdeJsonWriteSnapshot (s : GfxstreamContextSnapshot) : List Nat :=
  jsonSnapshotHead ++ digitsBE s.ctx_id ++ [125]

/-- Consume an expected byte pattern from the front of a byte list. -/
def stripBytes : List Nat → List Nat → Option (List Nat)
  | [], rest => some rest
  | _ :: _, [] => none
  | p :: ps, c :: cs => if c = p then stripBytes ps cs else none

/-- Parse ASCII decimal digits with an accumulator, failing on any non-digit
byte. -/
def parseDigitsAux : List Nat → Nat → Option Nat
  | [], acc => some acc
  | c :: cs, acc =>
      if 48 ≤ c ∧ c ≤ 57 then parseDigitsAux cs (acc * 10 + (c - 48))
      else none

/-- Parse a non-empty ASCII decimal numeral. -/
def parseDigits (cs : List Nat) : Option Nat :=
  match cs with
  | [] => none
  | _ :: _ => parseDigitsAux cs 0

/-- Modelled from the external serde_json crate: `serde_json::from_reader`
for `GfxstreamContextSnapshot` accepts the canonical encoding produced by
`serdeJsonWriteSnapshot` and recovers the `ctx_id` field; any other byte
sequence of that shape is rejected. -/
def serdeJsonReadSnapshot (bytes : List Nat) : Option GfxstreamContextSnapshot :=
  match stripBytes jsonSnapshotHead bytes with
  | none => none
  | some rest =>
      match rest.reverse with
      | [] => none
      | c :: revMid =>
          if c = 125 then
            match parseDigits revMid.reverse with
            | some n => some { ctx_id := n }
            | none => none
          else none

/-- `GfxstreamContext::snapshot` (gfxstream.rs): serializes
`GfxstreamContextSnapshot \x7b ctx_id \x7d` to JSON bytes; serialization of
this record cannot fail. -/
def GfxstreamContext.snapshot (ctx : GfxstreamContext) :
    Except RutabagaErrorKind (List Nat) :=
  Except.ok (serdeJsonWriteSnapshot { ctx_id := ctx.ctx_id })

/-- `Gfxstream::restore_context` (gfxstream.rs, `gfxstream_unstable`),
modelled by its evident intent rather than its letter: the source's error
conversion reads `.map_err(|e| RutabagaError::from)?`, whose closure
returns the un-applied conversion function instead of applying it to the
error, a type error — under `cfg(gfxstream_unstable)` the function does
not compile as written.  The correct idiom, passing the conversion
function itself as in `.map_err(RutabagaError::from)`, appears in
`GfxstreamContext::snapshot` earlier in the same file (gfxstream.rs:361),
so the intent is unambiguous and is what this definition
embeds: deserialize the snapshot bytes (an `IoError` kind on parse
failure) and rebuild a `GfxstreamContext` carrying the recorded `ctx_id`,
bound to the freshly supplied fence handler. -/
def Gfxstream.restore_context (snapshot : List Nat) :
    Except RutabagaErrorKind GfxstreamContext :=
  match serdeJsonReadSnapshot snapshot with
  | none => Except.error RutabagaErrorKind.IoError
  | some s => Except.ok { ctx_id := s.ctx_id }

/- ## Concrete fixtures for witnesses and counterexamples -/

/-- A benign concrete backend oracle: every call succeeds (return code 0),
`map_info` reports 0, capset 5 reports version 1 and 8 bytes, export yields
descriptor 7 of type 1. -/
def okBackend : Backend where
  create_fence_result := fun _ => 0
  export_fence_result := fun _ => (0, { os_handle := 7, handle_type := 1 })
  submit_cmd_result := fun _ _ _ => 0
  transfer_write_result := fun _ _ _ => 0
  transfer_read_result := fun _ _ _ _ => 0
  import_resource_result := fun _ _ _ => 0
  map_info_result := fun _ => (0, 0)
  get_cap_set_result := fun _ => (1, 8)
  fill_caps_bytes := fun _ _ => [1, 2, 3]
  context_create_result := fun _ _ _ _ => 0

/-- A concrete OS oracle whose `mmap` always succeeds at address 4096. -/
def okMmapSys : MmapSys where
  mmap_result := fun _ _ _ => Sum.inr 4096

/-- A concrete fence on ring index 1. -/
def fenceRing1 : RutabagaFence :=
  { flags := RUTABAGA_FLAG_FENCE, fence_id := 5, ctx_id := 2, ring_idx := 1 }

/-- A concrete host-shareable fence on ring index 0. -/
def fenceShareable : RutabagaFence :=
  { flags := RUTABAGA_FLAG_FENCE + RUTABAGA_FLAG_FENCE_HOST_SHAREABLE,
    fence_id := 9, ctx_id := 2, ring_idx := 0 }

/-- A concrete context with id 3. -/
def ctx3 : GfxstreamContext := { ctx_id := 3 }

/-- A concrete resource with id 7 and no attachments. -/
def res7 : RutabagaResource :=
  { resource_id := 7, handle := none, blob := false, blob_mem := 0,
    blob_flags := 0, map_info := none, info_2d := none, info_3d := none,
    vulkan_info := none, backing_iovecs := none, component_mask := 4,
    size := 0, mapping := none }

/-- A concrete transfer region with zero width. -/
def transferZeroW : Transfer3D :=
  { x := 1, y := 2, z := 0, w := 0, h := 4, d := 1, level := 0, stride := 0,
    layer_stride := 0, offset := 0 }

/-- A concrete import handle. -/
def importHandle0 : RutabagaHandle := { os_handle := 11, handle_type := 2 }

/-- Concrete import data with both the layout-metadata flag and the
device-identity flag set. -/
def importDataBothFlags : RutabagaImportData :=
  { flags := RUTABAGA_IMPORT_FLAG_3D_INFO + RUTABAGA_IMPORT_FLAG_VULKAN_INFO,
    info_3d :=
      { width := 64, height := 64, drm_fourcc := 0, strides := [0, 0, 0, 0],
        offsets := [0, 0, 0, 0], modifier := 0, guest_cpu_mappable := false } }

/- ## Helper lemmas -/

theorem stripBytes_append (ps rest : List Nat) : stripBytes ps (ps ++ rest) = some rest := by
  induction ps with
  | nil => rfl
  | cons p ps ih => simp [stripBytes, ih]

theorem parseDigitsAux_append (xs ys : List Nat) (acc : Nat) :
    parseDigitsAux (xs ++ ys) acc =
      (parseDigitsAux xs acc).bind (fun a => parseDigitsAux ys a) := by
  induction xs generalizing acc with
  | nil => rfl
  | cons c cs ih =>
    by_cases h : 48 ≤ c ∧ c ≤ 57
    · simp [parseDigitsAux, h, ih]
    · simp [parseDigitsAux, h]

theorem digitsBE_ne_nil (n : Nat) : digitsBE n ≠ [] := by
  rw [digitsBE]
  split <;> simp

theorem parseDigitsAux_digitsBE (n : Nat) :
    ∀ acc, parseDigitsAux (digitsBE n) acc =
      some (acc * 10 ^ (digitsBE n).length + n) := by
  induction n using Nat.strong_induction_on with
  | _ n ih =>
    intro acc
    rw [digitsBE]
    by_cases h : n < 10
    · have h1 : 48 ≤ n + 48 ∧ n + 48 ≤ 57 := by omega
      rw [if_pos h]
      simp only [parseDigitsAux, if_pos h1, List.length_singleton]
      have hsub : n + 48 - 48 = n := by omega
      rw [hsub, pow_one]
    · have hlt : n / 10 < n := Nat.div_lt_self (by omega) (by norm_num)
      have h2 : 48 ≤ n % 10 + 48 ∧ n % 10 + 48 ≤ 57 := by
        have := Nat.mod_lt n (show 0 < 10 by norm_num)
        omega
      rw [if_neg h, parseDigitsAux_append, ih (n / 10) hlt acc]
      simp only [Option.some_bind, parseDigitsAux, if_pos h2, List.length_append,
        List.length_singleton]
      congr 1
      have hsub : n % 10 + 48 - 48 = n % 10 := by omega
      have hmod : 10 * (n / 10) + n % 10 = n := Nat.div_add_mod n 10
      rw [hsub, pow_succ]
      calc (acc * 10 ^ (digitsBE (n / 10)).length + n / 10) * 10 + n % 10
          = acc * (10 ^ (digitsBE (n / 10)).length * 10) + (10 * (n / 10) + n % 10) := by
            ring
        _ = acc * (10 ^ (digitsBE (n / 10)).length * 10) + n := by rw [hmod]

theorem parseDigits_digitsBE (n : Nat) : parseDigits (digitsBE n) = some n := by
  have h := parseDigitsAux_digitsBE n 0
  have hne := digitsBE_ne_nil n
  cases hd : digitsBE n with
  | nil => exact absurd hd hne
  | cons c cs =>
    rw [hd] at h
    simpa [parseDigits] using h

theorem serdeJsonRead_write (s : GfxstreamContextSnapshot) :
    serdeJsonReadSnapshot (serdeJsonWriteSnapshot s) = some s := by
  unfold serdeJsonReadSnapshot serdeJsonWriteSnapshot
  rw [List.append_assoc, stripBytes_append]
  simp [List.reverse_append, parseDigits_digitsBE]

theorem fillBufferBytes_length (buf written : List Nat) :
    (fillBufferBytes buf written).length = buf.length := by
  simp [fillBufferBytes]
  omega

/-- Normal form of `GfxstreamContext::context_create_fence` for a fence not
on ring 1, by case analysis on the backend return codes. -/
theorem context_create_fence_eq (b : Backend) (ctx : GfxstreamContext)
    (fence : RutabagaFence) (h : fence.ring_idx ≠ 1) :
    GfxstreamContext.context_create_fence b ctx fence =
      if b.create_fence_result fence = 0 then
        if fence.flags &&& RUTABAGA_FLAG_FENCE_HOST_SHAREABLE ≠ 0 then
          if (b.export_fence_result fence.fence_id).1 = 0 then
            (Except.ok (some
                { os_handle := (b.export_fence_result fence.fence_id).2.os_handle,
                  handle_type := (b.export_fence_result fence.fence_id).2.handle_type }),
             [BackendCall.createFence fence, BackendCall.exportFence fence.fence_id], [])
          else
            (Except.error (RutabagaErrorKind.ComponentError
                (b.export_fence_result fence.fence_id).1),
             [BackendCall.createFence fence, BackendCall.exportFence fence.fence_id], [])
        else
          (Except.ok none, [BackendCall.createFence fence], [])
      else
        (Except.error (RutabagaErrorKind.ComponentError (b.create_fence_result fence)),
         [BackendCall.createFence fence], []) := by
  unfold GfxstreamContext.context_create_fence GfxstreamContext.export_fence ret_to_res
  rw [if_neg h]
  by_cases h1 : b.create_fence_result fence = 0 <;>
    by_cases h2 : fence.flags &&& RUTABAGA_FLAG_FENCE_HOST_SHAREABLE ≠ 0 <;>
      by_cases h3 : (b.export_fence_result fence.fence_id).1 = 0 <;>
        simp [h1, h2, h3]

/-- The backend call performed by `Gfxstream::create_context` always carries
the resolved name and its byte length reduced modulo 2^32 (the `as u32`
cast), whatever the backend answers. -/
theorem create_context_trace (b : Backend) (ctx_id context_init : Nat)
    (context_name : Option (List Nat)) :
    (Gfxstream.create_context b ctx_id context_init context_name).2 =
      [BackendCall.contextCreate ctx_id
        ((resolve_context_name context_name).length % 2 ^ 32)
        (resolve_context_name context_name) context_init] := rfl

/-- A supplied non-empty name survives the default-name fallback. -/
theorem resolve_context_name_of_ne_nil (s : List Nat) (h : s.length ≠ 0) :
    resolve_context_name (some s) = s := by
  simp [resolve_context_name, h]

/- ## Claim theorems -/

/-- C1 counterexample: the component-level entry point `Gfxstream::create_fence`,
given the concrete ring-index-1 fence `fenceRing1`, does not invoke the fence
handler within the call (its handler trace is empty) and instead performs a
backend `stream_renderer_create_fence` call, contradicting the claim that a
ring-index-1 fence invokes its handler synchronously before `create_fence`
returns. -/
theorem C1_counterexample :
    (Gfxstream.create_fence okBackend fenceRing1).2.2 = [] ∧
    (Gfxstream.create_fence okBackend fenceRing1).2.1 =
      [BackendCall.createFence fenceRing1] := by
  exact ⟨rfl, rfl⟩

/-- C1 (amended): for `GfxstreamContext::context_create_fence`, a fence with
`ring_idx = 1` invokes the registered fence handler synchronously with that
fence before the call returns, returns success, and performs no backend
call; a fence with any other ring index never invokes the handler within
the call.  The component-level `Gfxstream::create_fence`, by contrast,
always forwards the fence to the backend and never invokes the handler
within the call, for any ring index. -/
theorem C1_ring1_sync_fence (b : Backend) (ctx : GfxstreamContext)
    (fence : RutabagaFence) :
    (fence.ring_idx = 1 →
      GfxstreamContext.context_create_fence b ctx fence =
        (Except.ok none, [], [fence])) ∧
    (fence.ring_idx ≠ 1 →
      (GfxstreamContext.context_create_fence b ctx fence).2.2 = []) ∧
    (Gfxstream.create_fence b fence).2.2 = [] ∧
    (Gfxstream.create_fence b fence).2.1 = [BackendCall.createFence fence] := by
  refine ⟨?_, ?_, rfl, rfl⟩
  · intro h
    unfold GfxstreamContext.context_create_fence
    rw [if_pos h]
  · intro h
    rw [context_create_fence_eq b ctx fence h]
    by_cases h1 : b.create_fence_result fence = 0 <;>
      by_cases h2 : fence.flags &&& RUTABAGA_FLAG_FENCE_HOST_SHAREABLE ≠ 0 <;>
        by_cases h3 : (b.export_fence_result fence.fence_id).1 = 0 <;>
          simp [h1, h2, h3]

/-- C1 witness: the amended theorem applied to the concrete ring-index-1
fence `fenceRing1`. -/
theorem C1_witness :
    GfxstreamContext.context_create_fence okBackend ctx3 fenceRing1 =
      (Except.ok none, [], [fenceRing1]) :=
  (C1_ring1_sync_fence okBackend ctx3 fenceRing1).1 rfl

/-- C2: for any transfer region with a zero extent (`w`, `h` or `d` equal to
0), both `Gfxstream::transfer_write` and `Gfxstream::transfer_read` return
success without any backend call and without modifying the resource, and
`Transfer3D::is_empty` holds exactly when `w = 0 ∨ h = 0 ∨ d = 0`. -/
theorem C2_transfer_empty_noop (b : Backend) (ctx_id : Nat)
    (res : RutabagaResource) (t : Transfer3D) (buf : Option (List Nat))
    (hz : t.w = 0 ∨ t.h = 0 ∨ t.d = 0) :
    Gfxstream.transfer_write b ctx_id res t = (Except.ok (), [], res) ∧
    Gfxstream.transfer_read b ctx_id res t buf = (Except.ok (), [], res) ∧
    (t.is_empty = true ↔ (t.w = 0 ∨ t.h = 0 ∨ t.d = 0)) := by
  have hiff : t.is_empty = true ↔ (t.w = 0 ∨ t.h = 0 ∨ t.d = 0) := by
    simp only [Transfer3D.is_empty, Bool.or_eq_true, beq_iff_eq]
    tauto
  have he : t.is_empty = true := hiff.mpr hz
  refine ⟨?_, ?_, hiff⟩
  · unfold Gfxstream.transfer_write
    rw [if_pos he]
  · unfold Gfxstream.transfer_read
    rw [if_pos he]

/-- C2 witness: the theorem applied to the concrete zero-width region
`transferZeroW`. -/
theorem C2_witness :
    Gfxstream.transfer_write okBackend 3 res7 transferZeroW =
      (Except.ok (), [], res7) ∧
    Gfxstream.transfer_read okBackend 3 res7 transferZeroW none =
      (Except.ok (), [], res7) ∧
    (transferZeroW.is_empty = true ↔
      (transferZeroW.w = 0 ∨ transferZeroW.h = 0 ∨ transferZeroW.d = 0)) :=
  C2_transfer_empty_noop okBackend 3 res7 transferZeroW none (Or.inl rfl)

/-- C3: for a host-shareable fence (not on ring 1) whose backend creation
call succeeds, `context_create_fence` synchronously asks the backend to
export an OS handle for the fence within the same call (both the creation
call and the export call appear in this call's backend trace).  If the
export succeeds the call returns the handle; if the export fails, the error
returned wraps the export status code — the failure reported is the export
step's, while the fence creation call has already been made and succeeded,
so the fence itself was created. -/
theorem C3_host_shareable_export (b : Backend) (ctx : GfxstreamContext)
    (fence : RutabagaFence) (hring : fence.ring_idx ≠ 1)
    (hflag : fence.flags &&& RUTABAGA_FLAG_FENCE_HOST_SHAREABLE ≠ 0)
    (hcreate : b.create_fence_result fence = 0) :
    (GfxstreamContext.context_create_fence b ctx fence).2.1 =
      [BackendCall.createFence fence, BackendCall.exportFence fence.fence_id] ∧
    ((b.export_fence_result fence.fence_id).1 = 0 →
      (GfxstreamContext.context_create_fence b ctx fence).1 =
        Except.ok (some
          { os_handle := (b.export_fence_result fence.fence_id).2.os_handle,
            handle_type := (b.export_fence_result fence.fence_id).2.handle_type })) ∧
    ((b.export_fence_result fence.fence_id).1 ≠ 0 →
      (GfxstreamContext.context_create_fence b ctx fence).1 =
        Except.error (RutabagaErrorKind.ComponentError
          (b.export_fence_result fence.fence_id).1)) := by
  rw [context_create_fence_eq b ctx fence hring]
  by_cases h3 : (b.export_fence_result fence.fence_id).1 = 0 <;>
    simp [hcreate, hflag, h3]

/-- C3 witness: the theorem applied to the concrete host-shareable fence
`fenceShareable` against `okBackend`. -/
theorem C3_witness :
    (GfxstreamContext.context_create_fence okBackend ctx3 fenceShareable).2.1 =
      [BackendCall.createFence fenceShareable,
       BackendCall.exportFence fenceShareable.fence_id] :=
  (C3_host_shareable_export okBackend ctx3 fenceShareable (by decide) (by decide)
    rfl).1

/-- C4 counterexample: importing with both the layout-metadata flag and the
device-identity flag set (`importDataBothFlags`, flags = 3) makes
`Gfxstream::import` panic through `assert!` — the outcome is `panicked`,
not a returned error — so the claim that the call is rejected with an error
and does not crash the process is false (no backend call is made, though). -/
theorem C4_counterexample :
    (Gfxstream.import okBackend 1 importHandle0 importDataBothFlags).1 =
      GfxOutcome.panicked ∧
    (Gfxstream.import okBackend 1 importHandle0 importDataBothFlags).2 = [] := by
  exact ⟨rfl, rfl⟩

/-- C4 (amended): an import whose `import_data` has both the
layout-metadata flag and the device-identity flag set panics via the
`assert!` before any backend call is made; it does not return an error. -/
theorem C4_import_both_flags_panics (b : Backend) (resource_id : Nat)
    (import_handle : RutabagaHandle) (import_data : RutabagaImportData)
    (_h3d : import_data.flags &&& RUTABAGA_IMPORT_FLAG_3D_INFO ≠ 0)
    (hvk : import_data.flags &&& RUTABAGA_IMPORT_FLAG_VULKAN_INFO ≠ 0) :
    Gfxstream.import b resource_id import_handle import_data =
      (GfxOutcome.panicked, []) := by
  unfold Gfxstream.import
  rw [if_pos hvk]

/-- C4 witness: the amended theorem applied to the concrete import data
with both flags set. -/
theorem C4_witness :
    Gfxstream.import okBackend 1 importHandle0 importDataBothFlags =
      (GfxOutcome.panicked, []) :=
  C4_import_both_flags_panics okBackend 1 importHandle0 importDataBothFlags
    (by decide) (by decide)

/-- C5 counterexample: against the concrete backend `okBackend`, which
reports map-info value 0 for resource 7, `Gfxstream::map_info` returns
`Ok 48` (48 = `RUTABAGA_MAP_ACCESS_RW`), not the backend-reported value 0:
the adapter adds access bits, so the result does not equal exactly the
backend-reported flags. -/
theorem C5_counterexample :
    (Gfxstream.map_info okBackend 7).1 = Except.ok 48 ∧
    (okBackend.map_info_result 7).2 = 0 ∧ (48 : Nat) ≠ 0 := by
  exact ⟨rfl, rfl, by decide⟩

/-- C5 (amended): when the backend reports map-info successfully,
`Gfxstream::map_info` returns the backend-reported value with the
read-write access bits `RUTABAGA_MAP_ACCESS_RW` ored in (bits may be added
by the adapter, none are removed), after exactly one backend map-info
query. -/
theorem C5_map_info_or_rw (b : Backend) (resource_id : Nat) :
    ((b.map_info_result resource_id).1 = 0 →
      (Gfxstream.map_info b resource_id).1 =
        Except.ok ((b.map_info_result resource_id).2 ||| RUTABAGA_MAP_ACCESS_RW)) ∧
    (Gfxstream.map_info b resource_id).2 =
      [BackendCall.resourceMapInfo resource_id] := by
  constructor
  · intro h
    unfold Gfxstream.map_info ret_to_res
    simp [h]
  · unfold Gfxstream.map_info ret_to_res
    by_cases h : (b.map_info_result resource_id).1 = 0 <;> simp [h]

/-- C5 witness: the amended theorem applied to `okBackend` and resource 7. -/
theorem C5_witness :
    (Gfxstream.map_info okBackend 7).1 =
      Except.ok ((okBackend.map_info_result 7).2 ||| RUTABAGA_MAP_ACCESS_RW) :=
  (C5_map_info_or_rw okBackend 7).1 rfl

/-- C6 counterexample: the buffer of 2^32 zero bytes has length a multiple
of 4, yet `submit_cmd` does not forward it to the backend: the `usize → u32`
length conversion (`try_into()?`) fails and the call returns a
`TryFromIntError` with an empty backend trace, contradicting the claim that
every buffer whose length is a multiple of 4 is forwarded unmodified. -/
theorem C6_counterexample :
    GfxstreamContext.submit_cmd okBackend ctx3 (List.replicate (2 ^ 32) 0) =
      (Except.error RutabagaErrorKind.TryFromIntError, []) ∧
    (List.replicate (2 ^ 32) (0 : Nat)).length % 4 = 0 := by
  constructor
  · unfold GfxstreamContext.submit_cmd
    norm_num
  · norm_num

/-- C6 (amended): a buffer whose byte length is not a multiple of the
command-word size (4 bytes) is rejected with an invalid-command-size error
before any backend call; a buffer whose length is a multiple of 4 and fits
in a `u32` is forwarded to the backend unmodified (same context id, the
exact length, the exact bytes); a buffer whose length is a multiple of 4
but does not fit in a `u32` fails the length conversion with a
`TryFromIntError`, also before any backend call. -/
theorem C6_submit_cmd_word_size (b : Backend) (ctx : GfxstreamContext)
    (commands : List Nat) :
    (commands.length % 4 ≠ 0 →
      GfxstreamContext.submit_cmd b ctx commands =
        (Except.error (RutabagaErrorKind.InvalidCommandSize commands.length), [])) ∧
    (commands.length % 4 = 0 → commands.length < 2 ^ 32 →
      (GfxstreamContext.submit_cmd b ctx commands).2 =
        [BackendCall.submitCmd ctx.ctx_id commands.length commands]) ∧
    (commands.length % 4 = 0 → 2 ^ 32 ≤ commands.length →
      GfxstreamContext.submit_cmd b ctx commands =
        (Except.error RutabagaErrorKind.TryFromIntError, [])) := by
  refine ⟨?_, ?_, ?_⟩
  · intro h
    unfold GfxstreamContext.submit_cmd
    rw [if_pos h]
  · intro h hfit
    unfold GfxstreamContext.submit_cmd
    rw [if_neg (by omega : ¬commands.length % 4 ≠ 0), if_pos hfit]
  · intro h hbig
    unfold GfxstreamContext.submit_cmd
    rw [if_neg (by omega : ¬commands.length % 4 ≠ 0),
      if_neg (by omega : ¬commands.length < 2 ^ 32)]

/-- C6 witness: the amended theorem applied to a concrete 4-byte buffer. -/
theorem C6_witness :
    (GfxstreamContext.submit_cmd okBackend ctx3 [0, 0, 0, 0]).2 =
      [BackendCall.submitCmd ctx3.ctx_id ([0, 0, 0, 0] : List Nat).length
        [0, 0, 0, 0]] :=
  (C6_submit_cmd_word_size okBackend ctx3 [0, 0, 0, 0]).2.1 rfl (by norm_num)

/-- C7: for every context, `GfxstreamContext::snapshot` succeeds, and
`Gfxstream::restore_context` applied to the produced bytes succeeds and
reconstructs a context whose `ctx_id` equals the original context's id.
This holds for the intent-repaired model of `restore_context`; the source
function itself does not compile (see the doc comment of
`Gfxstream.restore_context`), so the claim is reported as a code bug: the
round trip is what the code evidently means to do, and what the rest of
the function does once the one-token error-conversion slip is fixed. -/
theorem C7_snapshot_restore_roundtrip (ctx : GfxstreamContext) :
    ∃ bytes ctx', GfxstreamContext.snapshot ctx = Except.ok bytes ∧
      Gfxstream.restore_context bytes = Except.ok ctx' ∧
      ctx'.ctx_id = ctx.ctx_id := by
  refine ⟨serdeJsonWriteSnapshot { ctx_id := ctx.ctx_id },
    { ctx_id := ctx.ctx_id }, rfl, ?_, rfl⟩
  unfold Gfxstream.restore_context
  rw [serdeJsonRead_write]

/-- C8: for every capset id and version, `Gfxstream::get_capset` returns a
byte vector whose length equals exactly the `max_size` reported by
`Gfxstream::get_capset_info` for that capset id. -/
theorem C8_get_capset_length (b : Backend) (capset_id version : Nat) :
    (Gfxstream.get_capset b capset_id version).1.length =
      ((Gfxstream.get_capset_info b capset_id).1).2 := by
  unfold Gfxstream.get_capset Gfxstream.get_capset_info
  simp [fillBufferBytes_length]

/-- C9: `MemoryMapping::from_safe_descriptor` returns an error and performs
no `mmap` when the requested size is zero (the zero-size-mapping spec
violation when the access bits are valid, the access-flags one otherwise),
and returns the incorrect-access-flags error with no `mmap` whenever the
access bits of `map_info` are none of READ, WRITE, RW — each error being a
single error kind, never a crash. -/
theorem C9_from_safe_descriptor_rejects (sys : MmapSys)
    (descriptor size map_info : Nat) :
    (size = 0 →
      (map_info &&& RUTABAGA_MAP_ACCESS_MASK = RUTABAGA_MAP_ACCESS_READ ∨
        map_info &&& RUTABAGA_MAP_ACCESS_MASK = RUTABAGA_MAP_ACCESS_WRITE ∨
        map_info &&& RUTABAGA_MAP_ACCESS_MASK = RUTABAGA_MAP_ACCESS_RW) →
      MemoryMapping.from_safe_descriptor sys descriptor size map_info =
        (Except.error (RutabagaErrorKind.SpecViolation "zero size mapping"), [])) ∧
    (size = 0 →
      ∃ e, MemoryMapping.from_safe_descriptor sys descriptor size map_info =
        (Except.error e, [])) ∧
    (¬(map_info &&& RUTABAGA_MAP_ACCESS_MASK = RUTABAGA_MAP_ACCESS_READ ∨
        map_info &&& RUTABAGA_MAP_ACCESS_MASK = RUTABAGA_MAP_ACCESS_WRITE ∨
        map_info &&& RUTABAGA_MAP_ACCESS_MASK = RUTABAGA_MAP_ACCESS_RW) →
      MemoryMapping.from_safe_descriptor sys descriptor size map_info =
        (Except.error (RutabagaErrorKind.SpecViolation "incorrect access flags"),
         [])) := by
  have hvalid : size = 0 →
      (map_info &&& RUTABAGA_MAP_ACCESS_MASK = RUTABAGA_MAP_ACCESS_READ ∨
        map_info &&& RUTABAGA_MAP_ACCESS_MASK = RUTABAGA_MAP_ACCESS_WRITE ∨
        map_info &&& RUTABAGA_MAP_ACCESS_MASK = RUTABAGA_MAP_ACCESS_RW) →
      MemoryMapping.from_safe_descriptor sys descriptor size map_info =
        (Except.error (RutabagaErrorKind.SpecViolation "zero size mapping"), []) := by
    intro hsz hv
    subst hsz
    rcases hv with h | h | h <;>
      simp [MemoryMapping.from_safe_descriptor, h, RUTABAGA_MAP_ACCESS_READ,
        RUTABAGA_MAP_ACCESS_WRITE, RUTABAGA_MAP_ACCESS_RW]
  have hbadflags : ¬(map_info &&& RUTABAGA_MAP_ACCESS_MASK = RUTABAGA_MAP_ACCESS_READ ∨
        map_info &&& RUTABAGA_MAP_ACCESS_MASK = RUTABAGA_MAP_ACCESS_WRITE ∨
        map_info &&& RUTABAGA_MAP_ACCESS_MASK = RUTABAGA_MAP_ACCESS_RW) →
      MemoryMapping.from_safe_descriptor sys descriptor size map_info =
        (Except.error (RutabagaErrorKind.SpecViolation "incorrect access flags"),
         []) := by
    intro hbad
    push_neg at hbad
    obtain ⟨h1, h2, h3⟩ := hbad
    simp [MemoryMapping.from_safe_descriptor, h1, h2, h3]
  refine ⟨hvalid, ?_, hbadflags⟩
  intro hsz
  by_cases hv : map_info &&& RUTABAGA_MAP_ACCESS_MASK = RUTABAGA_MAP_ACCESS_READ ∨
      map_info &&& RUTABAGA_MAP_ACCESS_MASK = RUTABAGA_MAP_ACCESS_WRITE ∨
      map_info &&& RUTABAGA_MAP_ACCESS_MASK = RUTABAGA_MAP_ACCESS_RW
  · exact ⟨_, hvalid hsz hv⟩
  · exact ⟨_, hbadflags hv⟩

/-- C9 witness: the theorem applied to a concrete zero-size request with
valid read access bits (`map_info = 16`). -/
theorem C9_witness :
    MemoryMapping.from_safe_descriptor okMmapSys 3 0 16 =
      (Except.error (RutabagaErrorKind.SpecViolation "zero size mapping"), []) :=
  (C9_from_safe_descriptor_rejects okMmapSys 3 0 16).1 rfl (by decide)

/-- C10 counterexample: for the concrete non-empty name of 2^32 bytes, the
backend context-create call carries the byte length cast to `u32`
(`name.len() as u32`), which wraps to 0 — not the name's length 2^32 — so
the claim that a non-empty supplied name reaches the backend with exactly
its length is false at this input. -/
theorem C10_counterexample :
    (Gfxstream.create_context okBackend 3 5
        (some (List.replicate (2 ^ 32) 97))).2 =
      [BackendCall.contextCreate 3 0 (List.replicate (2 ^ 32) 97) 5] ∧
    (List.replicate (2 ^ 32) (97 : Nat)).length = 2 ^ 32 ∧
    (0 : Nat) ≠ 2 ^ 32 := by
  have hlen : (List.replicate (2 ^ 32) (97 : Nat)).length ≠ 0 := by
    rw [List.length_replicate]
    norm_num
  have hres : resolve_context_name (some (List.replicate (2 ^ 32) 97)) =
      List.replicate (2 ^ 32) 97 :=
    resolve_context_name_of_ne_nil (List.replicate (2 ^ 32) 97) hlen
  refine ⟨?_, by rw [List.length_replicate], by norm_num⟩
  rw [create_context_trace, hres, List.length_replicate, Nat.mod_self]

/-- C10 (amended): `Gfxstream::create_context` with a missing or empty
context name creates the backend context with the default name
`"gpu_renderer"` and its byte length 12; with a non-empty supplied name it
creates the backend context with exactly that name and its byte length
reduced modulo 2^32 by the `as u32` cast — in particular, with exactly that
name and its length whenever the name is shorter than 2^32 bytes. -/
theorem C10_create_context_name (b : Backend) (ctx_id context_init : Nat) :
    ((Gfxstream.create_context b ctx_id context_init none).2 =
      [BackendCall.contextCreate ctx_id 12 default_context_name context_init]) ∧
    ((Gfxstream.create_context b ctx_id context_init (some [])).2 =
      [BackendCall.contextCreate ctx_id 12 default_context_name context_init]) ∧
    (∀ s : List Nat, s ≠ [] →
      (Gfxstream.create_context b ctx_id context_init (some s)).2 =
        [BackendCall.contextCreate ctx_id (s.length % 2 ^ 32) s context_init]) ∧
    (∀ s : List Nat, s ≠ [] → s.length < 2 ^ 32 →
      (Gfxstream.create_context b ctx_id context_init (some s)).2 =
        [BackendCall.contextCreate ctx_id s.length s context_init]) := by
  have hsome : ∀ s : List Nat, s ≠ [] →
      (Gfxstream.create_context b ctx_id context_init (some s)).2 =
        [BackendCall.contextCreate ctx_id (s.length % 2 ^ 32) s context_init] := by
    intro s hs
    have hlen : s.length ≠ 0 := by
      simpa [List.length_eq_zero] using hs
    rw [create_context_trace, resolve_context_name_of_ne_nil s hlen]
  refine ⟨?_, ?_, hsome, ?_⟩
  · rw [create_context_trace]
    rfl
  · rw [create_context_trace]
    rfl
  · intro s hs hfit
    rw [hsome s hs, Nat.mod_eq_of_lt hfit]

/-- C10 witness: the amended theorem applied to the concrete non-empty
name `"test"` (bytes [116, 101, 115, 116], length 4 < 2^32). -/
theorem C10_witness :
    (Gfxstream.create_context okBackend 3 5 (some [116, 101, 115, 116])).2 =
      [BackendCall.contextCreate 3 ([116, 101, 115, 116] : List Nat).length
        [116, 101, 115, 116] 5] :=
  (C10_create_context_name okBackend 3 5).2.2.2 [116, 101, 115, 116] (by decide)
    (by norm_num)
